import Mathlib

/-!
Shallow embedding of the knawat-suppliers client library
(src/lib/config.js, src/lib/request.js, src/lib/products.js,
src/lib/suppliers.js) and proofs about its claimed behaviour.

JavaScript values are modelled by `JSVal`; the single process-wide
`config.HEADERS` object is modelled by a heap of header maps indexed by
`Nat` locations, so that the by-reference sharing of the headers object
between all `Request` instances is an explicit, provable fact.
Network effects are modelled by the `FetchCall` records a computation
produces: a call to the transport `fetch` corresponds to exactly one
`FetchCall` value, and a function that raises before reaching `fetch`
returns an error with an empty list of calls.
-/

/-- JavaScript values as used by this library: primitives, plain objects
(field lists in insertion order) and promise objects (opaque: only their
truthiness and string conversion matter to the modelled code). -/
inductive JSVal where
  | null : JSVal
  | undefined : JSVal
  | bool : Bool → JSVal
  | num : Int → JSVal
  | str : String → JSVal
  | obj : List (String × JSVal) → JSVal
  | promise : JSVal

/-- JavaScript truthiness: null, undefined, false, 0 and the empty string
are falsy; every object (including promises) is truthy. -/
def truthy : JSVal → Bool
  | .null => false
  | .undefined => false
  | .bool b => b
  | .num n => n != 0
  | .str s => s != ""
  | .obj _ => true
  | .promise => true

/-- Strict-equality test against the null literal, as in `o[1] === null`. -/
def isNull : JSVal → Bool
  | .null => true
  | _ => false

/-- Test for the undefined value (drives destructuring/parameter defaults). -/
def isUndef : JSVal → Bool
  | .undefined => true
  | _ => false

/-- A JavaScript default (`{x = d} = ...` or `f(x = d)`) replaces only the
undefined value by the default. -/
def jsDefault (v d : JSVal) : JSVal := if isUndef v then d else v

/-- String conversion as performed by template literals (`String(v)`). -/
def jsToString : JSVal → String
  | .null => "null"
  | .undefined => "undefined"
  | .bool b => if b then "true" else "false"
  | .num n => toString n
  | .str s => s
  | .obj _ => "[object Object]"
  | .promise => "[object Promise]"

/-- The JavaScript relational test `v > 0` after numeric coercion, for the
value shapes the library is used with: numbers compare directly, booleans
coerce to 0/1, null coerces to 0, undefined and plain objects coerce to
NaN (every comparison false). Numeric strings are not modelled: the
library's category filters are documented and used as numbers. -/
def jsGtZero : JSVal → Bool
  | .num n => decide (0 < n)
  | .bool b => b
  | _ => false

/-- Hexadecimal digit (uppercase, as produced by percent-encoding). -/
def hexDigit (n : Nat) : Char :=
  if n < 10 then Char.ofNat (48 + n) else Char.ofNat (55 + n)

/-- Bytes left unescaped by querystring.escape / encodeURIComponent:
alphanumerics and - . _ ~ ! ' ( ) *. -/
def isUnreservedByte (b : UInt8) : Bool :=
  let c := b.toNat
  (65 ≤ c && c ≤ 90) || (97 ≤ c && c ≤ 122) || (48 ≤ c && c ≤ 57) ||
    [45, 46, 95, 126, 33, 39, 40, 41, 42].contains c

/-- Percent-encode a single byte unless it is unreserved. -/
def qsEscapeByte (b : UInt8) : String :=
  if isUnreservedByte b then String.singleton (Char.ofNat b.toNat)
  else "%" ++ String.singleton (hexDigit (b.toNat / 16)) ++
    String.singleton (hexDigit (b.toNat % 16))

/-- querystring.escape: percent-encoding over the UTF-8 bytes. -/
def qsEscape (s : String) : String :=
  String.join (s.toUTF8.data.toList.map qsEscapeByte)

/-- Stringification of a single value by querystring.stringify: numbers,
strings and booleans are serialized, every other value becomes the empty
string. -/
def qsVal : JSVal → String
  | .num n => toString n
  | .str s => qsEscape s
  | .bool b => if b then "true" else "false"
  | _ => ""

/-- querystring.stringify over an object given as its (insertion-ordered)
field list: key=value pairs joined by ampersands. -/
def qsStringify (params : List (String × JSVal)) : String :=
  String.intercalate "&" (params.map (fun p => qsEscape p.1 ++ "=" ++ qsVal p.2))

/-- Minimal JSON string escaping (quote and backslash; the credential and
body strings the library serializes contain no control characters). -/
def jsonEscapeChar (c : Char) : String :=
  if c = '"' then "\\\"" else if c = '\\' then "\\\\" else String.singleton c

/-- Quote a string as a JSON string literal. -/
def jsonQuote (s : String) : String :=
  "\"" ++ String.join (s.toList.map jsonEscapeChar) ++ "\""

mutual

/-- JSON.stringify: objects serialize their fields in insertion order,
undefined-valued fields are omitted, promises (plain objects with no own
enumerable properties) serialize as an empty object, null and undefined
leaves serialize as the null literal. -/
def jsonStringify : JSVal → String
  | .null => "null"
  | .undefined => "null"
  | .bool b => if b then "true" else "false"
  | .num n => toString n
  | .str s => jsonQuote s
  | .obj fs => "\x7b" ++ String.intercalate "," (jsonFieldList fs) ++ "\x7d"
  | .promise => "\x7b\x7d"

/-- Serialized fields of a JSON object, skipping undefined values. -/
def jsonFieldList : List (String × JSVal) → List String
  | [] => []
  | (k, v) :: rest =>
    if isUndef v then jsonFieldList rest
    else (jsonQuote k ++ ":" ++ jsonStringify v) :: jsonFieldList rest

end

/-- Base64 alphabet. -/
def base64Alphabet : List Char :=
  "ABCDEFGHIJKLMNOPQRSTUVWXYZabcdefghijklmnopqrstuvwxyz0123456789+/".toList

/-- Character of a 6-bit group. -/
def b64c (n : Nat) : Char := base64Alphabet.getD n 'A'

/-- Base64 of a byte list (standard alphabet, padded), as produced by
Buffer.toString with the base64 encoding. -/
def base64Bytes : List UInt8 → String
  | [] => ""
  | [a] =>
    let x := a.toNat
    String.mk [b64c (x / 4), b64c (x % 4 * 16)] ++ "=="
  | [a, b] =>
    let x := a.toNat
    let y := b.toNat
    String.mk [b64c (x / 4), b64c (x % 4 * 16 + y / 16), b64c (y % 16 * 4)] ++ "="
  | a :: b :: c :: rest =>
    let x := a.toNat
    let y := b.toNat
    let z := c.toNat
    String.mk [b64c (x / 4), b64c (x % 4 * 16 + y / 16),
      b64c (y % 16 * 4 + z / 64), b64c (z % 64)] ++ base64Bytes rest

/-- Buffer.from(s).toString of the base64 encoding. -/
def base64 (s : String) : String := base64Bytes s.toUTF8.data.toList

/-- String.prototype.toUpperCase for the ASCII method names the library
uses (uppercase each character). -/
def jsToUpper (s : String) : String := String.mk (s.toList.map Char.toUpper)

/-- A headers object: string keys to string values, insertion-ordered. -/
abbrev HeaderMap := List (String × String)

/-- The heap of headers objects; only one location is ever allocated
(config.HEADERS), but keeping explicit locations makes the by-reference
aliasing of that object a provable statement. -/
abbrev Heap := Nat → HeaderMap

/-- Property write on a headers object: overwrite an existing key in place,
otherwise append (JavaScript property insertion order). -/
def setHeader (m : HeaderMap) (k v : String) : HeaderMap :=
  if m.any (fun p => p.1 == k) then
    m.map (fun p => if p.1 == k then (k, v) else p)
  else m ++ [(k, v)]

/-- Read a header key. -/
def getHeader (m : HeaderMap) (k : String) : Option String :=
  (m.find? (fun p => p.1 == k)).map (fun p => p.2)

/-- `this.headers.authorization = v` through a heap reference. -/
def writeAuth (h : Heap) (r : Nat) (v : String) : Heap :=
  fun n => if n = r then setHeader (h n) "authorization" v else h n

/-- The heap location of the single config.HEADERS object. -/
def configHeadersLoc : Nat := 0

/-- config.HEADERS before any instance mutates it. -/
def initHeaders : HeaderMap := [("Content-Type", "application/json")]

/-- The heap at module load: every location holds the initial headers map;
only configHeadersLoc is ever referenced. -/
def initHeap : Heap := fun _ => initHeaders

/-- config.js: base URL chosen by KNAWAT_ENV, Basic credentials from the
environment (undefined when the variable is absent). -/
structure Config where
  SUPPLIERS_API_URL : String
  BASIC_USER : JSVal
  BASIC_PASS : JSVal

/-- Base URL selection from config.js: production URL only when KNAWAT_ENV
is set and equals the production value, development URL otherwise. -/
def suppliersApiUrl (knawatEnv : Option String) : String :=
  if knawatEnv = some "production" then "https://suppliers.knawat.io/api"
  else "https://dev.suppliers.knawat.io/api"

/-- Build the config record from the three environment variables. -/
def mkConfig (knawatEnv basicUser basicPass : Option String) : Config :=
  { SUPPLIERS_API_URL := suppliersApiUrl knawatEnv
    BASIC_USER := match basicUser with | some s => .str s | none => .undefined
    BASIC_PASS := match basicPass with | some s => .str s | none => .undefined }

/-- The per-instance fields contributed by the Request base class: the
reference to the shared headers object (the class field initializer
`headers = config.HEADERS` copies the reference, not the object) and the
authentication mode string. -/
structure ReqInstance where
  headersRef : Nat
  authentication : String

/-- The fetchOptions record handed to the transport: method, the headers
map as read at call time, and the entries spread in from the caller's
options map (e.g. a body; the repository's callers never pass method or
headers keys in options, so the spread adds these entries verbatim). -/
structure FetchOptions where
  method : String
  headers : HeaderMap
  extra : List (String × JSVal)

/-- One invocation of the transport fetch: final URL and options. -/
structure FetchCall where
  url : String
  opts : FetchOptions

/-- Tail of Request.$fetch after the authentication block: append the
serialized options to the URL for a GET with a non-empty options map,
otherwise spread the options into fetchOptions; then issue the fetch. -/
def finishFetch (heap : Heap) (inst : ReqInstance) (method url : String)
    (options : List (String × JSVal)) : FetchCall × Heap :=
  let hdrs := heap inst.headersRef
  if jsToUpper method == "GET" && options.length > 0 then
    ({ url := url ++ "?" ++ qsStringify options,
       opts := { method := method, headers := hdrs, extra := [] } }, heap)
  else
    ({ url := url,
       opts := { method := method, headers := hdrs, extra := options } }, heap)

/-- Request.$fetch. In Basic mode it first demands configured credentials
(raising synchronously, before any fetch, when one is missing) and then
recomputes and stores the Basic authorization header on the shared headers
object; afterwards the verb-dependent serialization runs and the fetch is
issued. An error result therefore corresponds to a run that issued no
network call at all. -/
def dollarFetch (cfg : Config) (inst : ReqInstance) (heap : Heap)
    (method path : String) (options : List (String × JSVal)) :
    Except String (FetchCall × Heap) :=
  let url := cfg.SUPPLIERS_API_URL ++ path
  if inst.authentication == "Basic" then
    if !truthy cfg.BASIC_USER || !truthy cfg.BASIC_PASS then
      .error "no a valid Username and Password"
    else
      let AUTH := base64 (jsToString cfg.BASIC_USER ++ ":" ++ jsToString cfg.BASIC_PASS)
      let heap1 := writeAuth heap inst.headersRef ("Basic " ++ AUTH)
      .ok (finishFetch heap1 inst method url options)
  else
    .ok (finishFetch heap inst method url options)

/-- The transport calls issued by one $fetch invocation: exactly one on
success, none when $fetch raised before reaching the transport. -/
def traceOf : Except String (FetchCall × Heap) → List FetchCall
  | .ok (c, _) => [c]
  | .error _ => []

/-- The call produced by a successful $fetch invocation. -/
def callOf : Except String (FetchCall × Heap) → Option FetchCall
  | .ok (c, _) => some c
  | .error _ => none

/-- The heap after a $fetch invocation (unchanged heap when it raised). -/
def heapAfter (r : Except String (FetchCall × Heap)) (fallback : Heap) : Heap :=
  match r with
  | .ok (_, h) => h
  | .error _ => fallback

/-- Suppliers constructor: a Request instance whose authentication mode is
set to Basic; its headers field aliases the config.HEADERS object. -/
def Suppliers.construct : ReqInstance :=
  { headersRef := configHeadersLoc, authentication := "Basic" }

/-- Suppliers.getSuppliers: GET /suppliers with no options. -/
def Suppliers.getSuppliers (cfg : Config) (inst : ReqInstance) (heap : Heap) :
    Except String (FetchCall × Heap) :=
  dollarFetch cfg inst heap "GET" "/suppliers" []

/-- Suppliers.createSupplier: POST /suppliers with options containing the
supplier object (not a body key: passed through the spread verbatim). -/
def Suppliers.createSupplier (cfg : Config) (inst : ReqInstance) (heap : Heap)
    (supplier : JSVal) : Except String (FetchCall × Heap) :=
  dollarFetch cfg inst heap "POST" "/suppliers" [("supplier", supplier)]

/-- Suppliers.getSupplierKeys: GET /suppliers/id/keys. -/
def Suppliers.getSupplierKeys (cfg : Config) (inst : ReqInstance) (heap : Heap)
    (id : JSVal) : Except String (FetchCall × Heap) :=
  dollarFetch cfg inst heap "GET" ("/suppliers/" ++ jsToString id ++ "/keys") []

/-- The per-instance state of a Products object. -/
structure ProductsState where
  req : ReqInstance
  consumerKey : JSVal
  consumerSecret : JSVal
  myToken : JSVal

/-- Products.refreshToken, synchronous part: POST /token with the consumer
key and secret as a JSON body; the value it returns to the caller is the
pending promise. The continuation that runs on resolution is modelled
separately by refreshTokenResolve. -/
def Products.refreshToken (cfg : Config) (st : ProductsState) (heap : Heap) :
    Except String (JSVal × Heap) × List FetchCall :=
  match dollarFetch cfg st.req heap "POST" "/token"
      [("body", .str (jsonStringify (.obj
        [("key", st.consumerKey), ("secret", st.consumerSecret)])))] with
  | .error e => (.error e, [])
  | .ok (call, h1) => (.ok (.promise, h1), [call])

/-- The token getter: return myToken when it is truthy, otherwise the
result of refreshToken (a promise). -/
def Products.tokenGet (cfg : Config) (st : ProductsState) (heap : Heap) :
    Except String (JSVal × Heap) × List FetchCall :=
  if truthy st.myToken then (.ok (st.myToken, heap), [])
  else Products.refreshToken cfg st heap

/-- The token setter: a falsy assigned value is first replaced by the
getter's result; then myToken is set and the Bearer authorization header
is written to the shared headers object. -/
def Products.tokenSet (cfg : Config) (st : ProductsState) (heap : Heap)
    (val : JSVal) : Except String (ProductsState × Heap) × List FetchCall :=
  match (if truthy val then ((.ok (val, heap) : Except String (JSVal × Heap)), ([] : List FetchCall))
         else Products.tokenGet cfg st heap) with
  | (.error e, tr) => (.error e, tr)
  | (.ok (v, h1), tr) =>
    (.ok ({ st with myToken := v },
          writeAuth h1 st.req.headersRef ("Bearer " ++ jsToString v)), tr)

/-- Products constructor: raise the configuration error when the key/secret
pair is incomplete and no token is given; otherwise store the credentials
and run `this.token = token` through the setter. The second component
lists the transport calls issued during construction. -/
def Products.construct (cfg : Config) (heap : Heap) (key secret token : JSVal) :
    Except String (ProductsState × Heap) × List FetchCall :=
  if (!truthy key || !truthy secret) && !truthy token then
    (.error "Not a valid consumerKey and consumerSecret or token", [])
  else
    let st0 : ProductsState :=
      { req := { headersRef := configHeadersLoc, authentication := "Bearer" }
        consumerKey := key, consumerSecret := secret, myToken := .undefined }
    Products.tokenSet cfg st0 heap token

/-- The then-continuation of refreshToken: on resolution of the token
exchange, assign the returned user token through the setter. -/
def Products.refreshTokenResolve (cfg : Config) (st : ProductsState)
    (heap : Heap) (userToken : JSVal) :
    Except String (ProductsState × Heap) × List FetchCall :=
  Products.tokenSet cfg st heap userToken

/-- The arguments object of getProducts; a missing property is undefined. -/
structure GetProductsArgs where
  limit : JSVal := .undefined
  page : JSVal := .undefined
  qualified : JSVal := .undefined
  category_id : JSVal := .undefined
  keyword : JSVal := .undefined
  stock : JSVal := .undefined
  price : JSVal := .undefined
  sort_by : JSVal := .undefined
  sort_asc : JSVal := .undefined
  language : JSVal := .undefined

/-- The ten getProducts parameters after destructuring defaults, in the
insertion order of the queryParams object literal. -/
def getProductsDefaulted (a : GetProductsArgs) : List (String × JSVal) :=
  [("limit", jsDefault a.limit (.num 10)),
   ("page", jsDefault a.page (.num 1)),
   ("qualified", jsDefault a.qualified .null),
   ("category_id", jsDefault a.category_id .null),
   ("keyword", jsDefault a.keyword .null),
   ("stock", jsDefault a.stock .null),
   ("price", jsDefault a.price .null),
   ("sort_by", jsDefault a.sort_by .null),
   ("sort_asc", jsDefault a.sort_asc .null),
   ("language", jsDefault a.language (.str "tr"))]

/-- The queryParams object after the forEach that deletes every key whose
value is strictly equal to null. -/
def getProductsParams (a : GetProductsArgs) : List (String × JSVal) :=
  (getProductsDefaulted a).filter (fun p => !isNull p.2)

/-- Products.getProducts: GET /catalog/products with the null-filtered
query parameters. -/
def Products.getProducts (cfg : Config) (st : ProductsState) (heap : Heap)
    (a : GetProductsArgs) : Except String (FetchCall × Heap) :=
  dollarFetch cfg st.req heap "GET" "/catalog/products" (getProductsParams a)

/-- The queryParams object of getCategories: parentId and level are kept
only when truthy and greater than zero (destructuring defaults them to
null when absent). -/
def getCategoriesParams (parentId level : JSVal) : List (String × JSVal) :=
  let p := jsDefault parentId .null
  let l := jsDefault level .null
  (if truthy p && jsGtZero p then [("parentId", p)] else []) ++
    (if truthy l && jsGtZero l then [("level", l)] else [])

/-- Products.getCategories: GET /catalog/categories with the guarded
parameters. -/
def Products.getCategories (cfg : Config) (st : ProductsState) (heap : Heap)
    (parentId level : JSVal) : Except String (FetchCall × Heap) :=
  dollarFetch cfg st.req heap "GET" "/catalog/categories"
    (getCategoriesParams parentId level)

/-- Products.getOrders: limit and page defaulted to 25 and 1, serialized
manually with querystring.stringify and appended to the path; $fetch then
receives an empty options map. -/
def Products.getOrders (cfg : Config) (st : ProductsState) (heap : Heap)
    (limit page : JSVal) : Except String (FetchCall × Heap) :=
  let l := jsDefault limit (.num 25)
  let p := jsDefault page (.num 1)
  let params := qsStringify [("limit", l), ("page", p)]
  dollarFetch cfg st.req heap "GET" ("/orders?" ++ params) []

/-- Products.getOrderById: GET /orders/id with no options. -/
def Products.getOrderById (cfg : Config) (st : ProductsState) (heap : Heap)
    (id : JSVal) : Except String (FetchCall × Heap) :=
  dollarFetch cfg st.req heap "GET" ("/orders/" ++ jsToString id) []

/-- Products.createOrder: POST /orders with the JSON-serialized data as
the body option. -/
def Products.createOrder (cfg : Config) (st : ProductsState) (heap : Heap)
    (data : JSVal) : Except String (FetchCall × Heap) :=
  dollarFetch cfg st.req heap "POST" "/orders"
    [("body", .str (jsonStringify data))]

/-! Helper lemmas shared by the claim theorems. -/

theorem find_override (k v : String) :
    ∀ m : HeaderMap, m.any (fun p => p.1 == k) = true →
      List.find? (fun p => p.1 == k)
        (m.map (fun p => if p.1 == k then (k, v) else p)) = some (k, v) := by
  intro m
  induction m with
  | nil => intro h; simp at h
  | cons a rest ih =>
    intro h
    by_cases ha : (a.1 == k) = true
    · rw [List.map_cons, if_pos ha, List.find?_cons_of_pos _ (by simp)]
    · rw [List.map_cons, if_neg ha,
        List.find?_cons_of_neg _ (by simpa using ha)]
      exact ih (by simpa [List.any_cons, ha] using h)

theorem find_appended (k v : String) :
    ∀ m : HeaderMap, m.any (fun p => p.1 == k) = false →
      List.find? (fun p => p.1 == k) (m ++ [(k, v)]) = some (k, v) := by
  intro m
  induction m with
  | nil =>
    intro _
    rw [List.nil_append, List.find?_cons_of_pos _ (by simp)]
  | cons a rest ih =>
    intro h
    have h1 : (a.1 == k) = false := by
      cases hpa : (a.1 == k) with
      | true => rw [List.any_cons, hpa] at h; simp at h
      | false => rfl
    have h2 : rest.any (fun p => p.1 == k) = false := by
      rw [List.any_cons, h1] at h; simpa using h
    rw [List.cons_append, List.find?_cons_of_neg _ (by simp [h1])]
    exact ih h2

theorem getHeader_setHeader (m : HeaderMap) (k v : String) :
    getHeader (setHeader m k v) k = some v := by
  unfold setHeader getHeader
  by_cases h : m.any (fun p => p.1 == k) = true
  · rw [if_pos h, find_override k v m h]; rfl
  · rw [if_neg h,
      find_appended k v m (Bool.eq_false_iff.mpr h)]
    rfl

theorem finishFetch_heap (heap : Heap) (inst : ReqInstance) (method url : String)
    (options : List (String × JSVal)) :
    (finishFetch heap inst method url options).2 = heap := by
  unfold finishFetch
  split <;> rfl

theorem finishFetch_headers (heap : Heap) (inst : ReqInstance) (method url : String)
    (options : List (String × JSVal)) :
    (finishFetch heap inst method url options).1.opts.headers = heap inst.headersRef := by
  unfold finishFetch
  split <;> rfl

/-- C10: the Products constructor raises its configuration error exactly
when the key/secret pair is incomplete (at least one of key, secret falsy)
and the token is falsy; a complete pair, or a token alone, never triggers
it, and no other construction error exists. -/
theorem products_construct_error_iff (cfg : Config) (heap : Heap)
    (key secret token : JSVal) :
    ((Products.construct cfg heap key secret token).1 =
        .error "Not a valid consumerKey and consumerSecret or token") ↔
      ((truthy key = false ∨ truthy secret = false) ∧ truthy token = false) := by
  cases htk : truthy key <;> cases hts : truthy secret <;>
    cases htt : truthy token <;>
    cases hmt : token <;>
    simp_all [Products.construct, Products.tokenSet, Products.tokenGet,
      Products.refreshToken, dollarFetch, finishFetch, truthy]

/-- C3: constructing Products with no key, no secret and no token raises
the configuration error immediately, with no transport call issued, while
construction with a complete key/secret pair, or with a token, succeeds. -/
theorem products_construct_requires_credentials (cfg : Config) (heap : Heap)
    (key secret token : JSVal)
    (hks : truthy key = true ∧ truthy secret = true ∨ truthy token = true) :
    (Products.construct cfg heap .undefined .undefined .undefined =
        (.error "Not a valid consumerKey and consumerSecret or token", [])) ∧
    ((Products.construct cfg heap key secret token).1.isOk = true) := by
  constructor
  · rfl
  · rcases hks with ⟨hk, hs⟩ | ht
    · cases htt : truthy token <;>
        cases token <;>
        simp_all [Products.construct, Products.tokenSet, Products.tokenGet,
          Products.refreshToken, dollarFetch, finishFetch, truthy, Except.isOk, Except.toBool]
    · cases token <;>
        simp_all [Products.construct, Products.tokenSet, Products.tokenGet,
          Products.refreshToken, dollarFetch, finishFetch, truthy, Except.isOk, Except.toBool]

/-- Witness for C3 at concrete inputs: the key/secret pair ("k", "s") and
the lone token "t" both satisfy the hypothesis, and the conclusions hold on
the initial heap and development config. -/
theorem products_construct_requires_credentials_witness :
    ((truthy (.str "k") = true ∧ truthy (.str "s") = true ∨
        truthy (JSVal.undefined) = true) ∧
      (Products.construct (mkConfig none none none) initHeap .undefined .undefined .undefined =
          (.error "Not a valid consumerKey and consumerSecret or token", []) ∧
        ((Products.construct (mkConfig none none none) initHeap (.str "k") (.str "s")
            .undefined).1.isOk = true))) ∧
    ((truthy (JSVal.undefined) = true ∧ truthy (JSVal.undefined) = true ∨
        truthy (.str "t") = true) ∧
      (Products.construct (mkConfig none none none) initHeap .undefined .undefined .undefined =
          (.error "Not a valid consumerKey and consumerSecret or token", []) ∧
        ((Products.construct (mkConfig none none none) initHeap .undefined .undefined
            (.str "t")).1.isOk = true))) :=
  ⟨⟨Or.inl ⟨by decide, by decide⟩,
      products_construct_requires_credentials (mkConfig none none none) initHeap
        (.str "k") (.str "s") .undefined (Or.inl ⟨by decide, by decide⟩)⟩,
    ⟨Or.inr (by decide),
      products_construct_requires_credentials (mkConfig none none none) initHeap
        .undefined .undefined (.str "t") (Or.inr (by decide))⟩⟩

/-- C1 counterexample: for a Products instance constructed with a
key/secret pair and no token, the token-exchange POST to /token is issued
already during construction (the token setter, given the empty token,
invokes the getter, which calls refreshToken) — not lazily on the first
resource call as the claim states. -/
theorem products_construct_issues_token_exchange :
    ((Products.construct (mkConfig none none none) initHeap
        (.str "k") (.str "s") .undefined).2.map
          (fun c => (c.url, c.opts.method))) =
      [("https://dev.suppliers.knawat.io/api/token", "POST")] := rfl

/-- C1 (amended): constructing Products with a key/secret pair issues
exactly one token-exchange POST, at construction time; the pending promise
is memoized into myToken (truthy), so the token getter afterwards returns
it without any further request, resolution of the exchange stores the
returned token without a new request, resource calls issue only their own
GET (never a POST, so never a second exchange), and only an explicit
assignment of a truthy token replaces the memoized value (itself without
any request). -/
theorem products_token_exchange_once_at_construction (cfg : Config)
    (heap : Heap) (key secret : JSVal)
    (hk : truthy key = true) (hs : truthy secret = true) :
    (Products.construct cfg heap key secret .undefined =
      (.ok ({ req := { headersRef := configHeadersLoc, authentication := "Bearer" },
              consumerKey := key, consumerSecret := secret, myToken := .promise },
            writeAuth heap configHeadersLoc ("Bearer [object Promise]")),
       [{ url := cfg.SUPPLIERS_API_URL ++ "/token",
          opts := { method := "POST", headers := heap configHeadersLoc,
                    extra := [("body", .str (jsonStringify
                      (.obj [("key", key), ("secret", secret)])))] } }])) ∧
    (∀ h : Heap, Products.tokenGet cfg
        { req := { headersRef := configHeadersLoc, authentication := "Bearer" },
          consumerKey := key, consumerSecret := secret, myToken := .promise } h =
      (.ok (.promise, h), [])) ∧
    (∀ (h : Heap) (t : String), t ≠ "" →
      Products.refreshTokenResolve cfg
        { req := { headersRef := configHeadersLoc, authentication := "Bearer" },
          consumerKey := key, consumerSecret := secret, myToken := .promise } h
        (.str t) =
      (.ok ({ req := { headersRef := configHeadersLoc, authentication := "Bearer" },
              consumerKey := key, consumerSecret := secret, myToken := .str t },
            writeAuth h configHeadersLoc ("Bearer " ++ t)), [])) ∧
    (∀ (h : Heap) (st : ProductsState) (id : JSVal),
      (traceOf (Products.getOrderById cfg st h id)).all
        (fun c => c.opts.method == "GET") = true) ∧
    (∀ (h : Heap) (st : ProductsState) (v : JSVal), truthy v = true →
      Products.tokenSet cfg st h v =
        (.ok ({ st with myToken := v },
              writeAuth h st.req.headersRef ("Bearer " ++ jsToString v)), [])) := by
  refine ⟨?_, ?_, ?_, ?_, ?_⟩
  · unfold Products.construct
    rw [show ((!truthy key || !truthy secret) && !truthy JSVal.undefined) = false
      from by rw [hk, hs]; rfl]
    rfl
  · intro h
    rfl
  · intro h t ht
    unfold Products.refreshTokenResolve Products.tokenSet
    rw [show truthy (JSVal.str t) = true from by simp [truthy, ht]]
    rfl
  · intro h st id
    unfold Products.getOrderById dollarFetch
    split
    · split
      · rfl
      · rfl
    · rfl
  · intro h st v hv
    unfold Products.tokenSet
    rw [hv]
    rfl

/-- Witness for C1's amended theorem: at key "k", secret "s" the
hypotheses hold and the construction trace has exactly one call. -/
theorem products_token_exchange_once_at_construction_witness :
    truthy (JSVal.str "k") = true ∧ truthy (JSVal.str "s") = true ∧
    (Products.construct (mkConfig none none none) initHeap
        (JSVal.str "k") (JSVal.str "s") JSVal.undefined).2.length = 1 :=
  ⟨by decide, by decide, by
    rw [(products_token_exchange_once_at_construction (mkConfig none none none)
      initHeap (JSVal.str "k") (JSVal.str "s") (by decide) (by decide)).1]
    rfl⟩

/-! Evaluation helpers for dollarFetch used by several claim proofs. -/

theorem dollarFetch_bearer (cfg : Config) (inst : ReqInstance) (heap : Heap)
    (method path : String) (options : List (String × JSVal))
    (h : inst.authentication = "Bearer") :
    dollarFetch cfg inst heap method path options =
      .ok (finishFetch heap inst method (cfg.SUPPLIERS_API_URL ++ path) options) := by
  unfold dollarFetch
  rw [h]
  rfl

theorem dollarFetch_basic_ok (cfg : Config) (inst : ReqInstance) (heap : Heap)
    (method path : String) (options : List (String × JSVal))
    (hb : inst.authentication = "Basic")
    (hu : truthy cfg.BASIC_USER = true) (hp : truthy cfg.BASIC_PASS = true) :
    dollarFetch cfg inst heap method path options =
      .ok (finishFetch
        (writeAuth heap inst.headersRef ("Basic " ++ base64
          (jsToString cfg.BASIC_USER ++ ":" ++ jsToString cfg.BASIC_PASS)))
        inst method (cfg.SUPPLIERS_API_URL ++ path) options) := by
  unfold dollarFetch
  rw [hb, hu, hp]
  rfl

theorem finishFetch_get (heap : Heap) (inst : ReqInstance) (url : String)
    (options : List (String × JSVal)) (hne : options ≠ []) :
    finishFetch heap inst "GET" url options =
      ({ url := url ++ "?" ++ qsStringify options,
         opts := { method := "GET", headers := heap inst.headersRef,
                   extra := [] } }, heap) := by
  unfold finishFetch
  rw [show (jsToUpper "GET" == "GET" && decide (options.length > 0)) = true from by
    rw [decide_eq_true (List.length_pos.mpr hne)]; rfl]
  rfl

theorem finishFetch_nil (heap : Heap) (inst : ReqInstance) (method url : String) :
    finishFetch heap inst method url [] =
      ({ url := url,
         opts := { method := method, headers := heap inst.headersRef,
                   extra := [] } }, heap) := by
  unfold finishFetch
  rw [show (jsToUpper method == "GET" &&
      decide (([] : List (String × JSVal)).length > 0)) = false from by simp]
  rfl

theorem finishFetch_nonget (heap : Heap) (inst : ReqInstance) (method url : String)
    (options : List (String × JSVal))
    (hm : (jsToUpper method == "GET") = false) :
    finishFetch heap inst method url options =
      ({ url := url,
         opts := { method := method, headers := heap inst.headersRef,
                   extra := options } }, heap) := by
  unfold finishFetch
  rw [show (jsToUpper method == "GET" && decide (options.length > 0)) = false from by
    rw [hm]; rfl]
  rfl

/-- Modelled from the spec (refinement side of C2): the key set the spec
demands in the outgoing query — of the ten filter/sort parameters with
their documented defaults (limit 10, page 1, language "tr", the rest
null), exactly those whose value after defaulting is not the null
sentinel. -/
def specNonNullQueryKeys (a : GetProductsArgs) : List String :=
  (([("limit", jsDefault a.limit (.num 10)),
     ("page", jsDefault a.page (.num 1)),
     ("qualified", jsDefault a.qualified .null),
     ("category_id", jsDefault a.category_id .null),
     ("keyword", jsDefault a.keyword .null),
     ("stock", jsDefault a.stock .null),
     ("price", jsDefault a.price .null),
     ("sort_by", jsDefault a.sort_by .null),
     ("sort_asc", jsDefault a.sort_asc .null),
     ("language", jsDefault a.language (.str "tr"))]).filter
    (fun p => !isNull p.2)).map (fun p => p.1)

/-- C2: the getProducts query contains exactly the non-null parameters
after defaulting — null-valued keys are deleted, non-null falsy values are
kept — and the all-defaults call sends exactly limit=10, page=1,
language=tr as its query with no body entries. -/
theorem getProducts_null_filtering (cfg : Config) (st : ProductsState)
    (heap : Heap) (a : GetProductsArgs)
    (hauth : st.req.authentication = "Bearer") :
    ((getProductsParams a).map (fun p => p.1) = specNonNullQueryKeys a) ∧
    (∀ p ∈ getProductsParams a, isNull p.2 = false) ∧
    (∀ p ∈ getProductsDefaulted a, isNull p.2 = false → p ∈ getProductsParams a) ∧
    (getProductsParams a ≠ [] →
      callOf (Products.getProducts cfg st heap a) =
        some { url := cfg.SUPPLIERS_API_URL ++ "/catalog/products" ++ "?" ++
                 qsStringify (getProductsParams a),
               opts := { method := "GET", headers := heap st.req.headersRef,
                         extra := [] } }) ∧
    (getProductsParams a = [] →
      callOf (Products.getProducts cfg st heap a) =
        some { url := cfg.SUPPLIERS_API_URL ++ "/catalog/products",
               opts := { method := "GET", headers := heap st.req.headersRef,
                         extra := [] } }) ∧
    (callOf (Products.getProducts cfg st heap {}) =
      some { url := cfg.SUPPLIERS_API_URL ++ "/catalog/products" ++ "?" ++
               "limit=10&page=1&language=tr",
             opts := { method := "GET", headers := heap st.req.headersRef,
                       extra := [] } }) := by
  refine ⟨rfl, ?_, ?_, ?_, ?_, ?_⟩
  · intro p hp
    have := (List.mem_filter.mp hp).2
    simpa using this
  · intro p hp hnull
    exact List.mem_filter.mpr ⟨hp, by rw [hnull]; rfl⟩
  · intro hne
    unfold Products.getProducts
    rw [dollarFetch_bearer cfg st.req heap "GET" "/catalog/products"
        (getProductsParams a) hauth,
      finishFetch_get heap st.req (cfg.SUPPLIERS_API_URL ++ "/catalog/products")
        (getProductsParams a) hne]
    rfl
  · intro hnil
    unfold Products.getProducts
    rw [hnil, dollarFetch_bearer cfg st.req heap "GET" "/catalog/products" [] hauth,
      finishFetch_nil heap st.req "GET" (cfg.SUPPLIERS_API_URL ++ "/catalog/products")]
    rfl
  · unfold Products.getProducts
    rw [dollarFetch_bearer cfg st.req heap "GET" "/catalog/products"
        (getProductsParams {}) hauth,
      finishFetch_get heap st.req (cfg.SUPPLIERS_API_URL ++ "/catalog/products")
        (getProductsParams {})
        (by rw [show getProductsParams {} =
              [("limit", JSVal.num 10), ("page", JSVal.num 1),
               ("language", JSVal.str "tr")] from rfl]
            exact List.cons_ne_nil _ _)]
    rfl

/-- Witness for C2 at a concrete instance: a Bearer-mode state on the
initial heap; the all-defaults query key set is limit, page, language. -/
theorem getProducts_null_filtering_witness :
    ({ req := { headersRef := configHeadersLoc, authentication := "Bearer" },
       consumerKey := JSVal.str "k", consumerSecret := JSVal.str "s",
       myToken := JSVal.str "t" : ProductsState }.req.authentication = "Bearer") ∧
    (getProductsParams {}).map (fun p => p.1) = specNonNullQueryKeys {} ∧
    callOf (Products.getProducts (mkConfig none none none)
        { req := { headersRef := configHeadersLoc, authentication := "Bearer" },
          consumerKey := JSVal.str "k", consumerSecret := JSVal.str "s",
          myToken := JSVal.str "t" } initHeap {}) =
      some { url := (mkConfig none none none).SUPPLIERS_API_URL ++
               "/catalog/products" ++ "?" ++ "limit=10&page=1&language=tr",
             opts := { method := "GET",
                       headers := initHeap configHeadersLoc,
                       extra := [] } } := by
  refine ⟨rfl, ?_, ?_⟩
  · exact (getProducts_null_filtering (mkConfig none none none)
      { req := { headersRef := configHeadersLoc, authentication := "Bearer" },
        consumerKey := JSVal.str "k", consumerSecret := JSVal.str "s",
        myToken := JSVal.str "t" } initHeap {} rfl).1
  · exact (getProducts_null_filtering (mkConfig none none none)
      { req := { headersRef := configHeadersLoc, authentication := "Bearer" },
        consumerKey := JSVal.str "k", consumerSecret := JSVal.str "s",
        myToken := JSVal.str "t" } initHeap {} rfl).2.2.2.2.2

/-- Membership of the parentId key in the getCategories query parameters. -/
theorem mem_getCategoriesParams_parentId (pid l v : JSVal) :
    (("parentId", v) ∈ getCategoriesParams pid l) ↔
      ((truthy (jsDefault pid .null) && jsGtZero (jsDefault pid .null)) = true ∧
        v = jsDefault pid .null) := by
  unfold getCategoriesParams
  by_cases hp : (truthy (jsDefault pid .null) && jsGtZero (jsDefault pid .null)) = true <;>
    by_cases hl : (truthy (jsDefault l .null) && jsGtZero (jsDefault l .null)) = true <;>
      simp [hp, hl]

/-- Membership of the level key in the getCategories query parameters. -/
theorem mem_getCategoriesParams_level (pid l v : JSVal) :
    (("level", v) ∈ getCategoriesParams pid l) ↔
      ((truthy (jsDefault l .null) && jsGtZero (jsDefault l .null)) = true ∧
        v = jsDefault l .null) := by
  unfold getCategoriesParams
  by_cases hp : (truthy (jsDefault pid .null) && jsGtZero (jsDefault pid .null)) = true <;>
    by_cases hl : (truthy (jsDefault l .null) && jsGtZero (jsDefault l .null)) = true <;>
      simp [hp, hl]

/-- C4: getCategories includes parentId (resp. level) in the query exactly
when the argument is a provided, strictly positive number — 0 and -1 are
dropped (0 is falsy; -1 is truthy but fails the > 0 test), null/undefined
are dropped, and a positive value is serialized, e.g. parentId=5. -/
theorem getCategories_positive_guard (cfg : Config) (st : ProductsState)
    (heap : Heap) (hauth : st.req.authentication = "Bearer") :
    (∀ (n : Int) (l : JSVal),
      (∃ v, ("parentId", v) ∈ getCategoriesParams (.num n) l) ↔ 0 < n) ∧
    (∀ l : JSVal, ¬ (∃ v, ("parentId", v) ∈ getCategoriesParams .null l)) ∧
    (∀ l : JSVal, ¬ (∃ v, ("parentId", v) ∈ getCategoriesParams .undefined l)) ∧
    (∀ (p : JSVal) (m : Int),
      (∃ v, ("level", v) ∈ getCategoriesParams p (.num m)) ↔ 0 < m) ∧
    (∀ n : Int, 0 < n →
      callOf (Products.getCategories cfg st heap (.num n) .undefined) =
        some { url := cfg.SUPPLIERS_API_URL ++ "/catalog/categories" ++ "?" ++
                 qsStringify [("parentId", .num n)],
               opts := { method := "GET", headers := heap st.req.headersRef,
                         extra := [] } }) ∧
    (∀ n : Int, ¬ 0 < n →
      callOf (Products.getCategories cfg st heap (.num n) .undefined) =
        some { url := cfg.SUPPLIERS_API_URL ++ "/catalog/categories",
               opts := { method := "GET", headers := heap st.req.headersRef,
                         extra := [] } }) ∧
    (callOf (Products.getCategories cfg st heap (.num 5) .undefined) =
      some { url := cfg.SUPPLIERS_API_URL ++ "/catalog/categories" ++ "?" ++
               "parentId=5",
             opts := { method := "GET", headers := heap st.req.headersRef,
                       extra := [] } }) := by
  have hpos : ∀ n : Int, 0 < n →
      callOf (Products.getCategories cfg st heap (.num n) .undefined) =
        some { url := cfg.SUPPLIERS_API_URL ++ "/catalog/categories" ++ "?" ++
                 qsStringify [("parentId", .num n)],
               opts := { method := "GET", headers := heap st.req.headersRef,
                         extra := [] } } := by
    intro n hn
    have hne0 : n ≠ 0 := by omega
    have hps : getCategoriesParams (.num n) .undefined =
        [("parentId", .num n)] := by
      simp [getCategoriesParams, jsDefault, isUndef, truthy, jsGtZero, hn, hne0]
    unfold Products.getCategories
    rw [hps, dollarFetch_bearer cfg st.req heap "GET" "/catalog/categories"
        [("parentId", .num n)] hauth,
      finishFetch_get heap st.req (cfg.SUPPLIERS_API_URL ++ "/catalog/categories")
        [("parentId", .num n)] (List.cons_ne_nil _ _)]
    rfl
  have hneg : ∀ n : Int, ¬ 0 < n →
      callOf (Products.getCategories cfg st heap (.num n) .undefined) =
        some { url := cfg.SUPPLIERS_API_URL ++ "/catalog/categories",
               opts := { method := "GET", headers := heap st.req.headersRef,
                         extra := [] } } := by
    intro n hn
    have hps : getCategoriesParams (.num n) .undefined = [] := by
      simp [getCategoriesParams, jsDefault, isUndef, truthy, jsGtZero, hn]
    unfold Products.getCategories
    rw [hps, dollarFetch_bearer cfg st.req heap "GET" "/catalog/categories" [] hauth,
      finishFetch_nil heap st.req "GET"
        (cfg.SUPPLIERS_API_URL ++ "/catalog/categories")]
    rfl
  refine ⟨?_, ?_, ?_, ?_, hpos, hneg, ?_⟩
  · intro n l
    constructor
    · rintro ⟨v, hv⟩
      have hb := ((mem_getCategoriesParams_parentId _ _ _).mp hv).1
      simp [jsDefault, isUndef, truthy, jsGtZero] at hb
      exact hb.2
    · intro h
      exact ⟨.num n, (mem_getCategoriesParams_parentId _ _ _).mpr
        ⟨by simp [jsDefault, isUndef, truthy, jsGtZero, h]; omega, rfl⟩⟩
  · rintro l ⟨v, hv⟩
    have hb := ((mem_getCategoriesParams_parentId _ _ _).mp hv).1
    simp [jsDefault, isUndef, truthy] at hb
  · rintro l ⟨v, hv⟩
    have hb := ((mem_getCategoriesParams_parentId _ _ _).mp hv).1
    simp [jsDefault, isUndef, truthy] at hb
  · intro p m
    constructor
    · rintro ⟨v, hv⟩
      have hb := ((mem_getCategoriesParams_level _ _ _).mp hv).1
      simp [jsDefault, isUndef, truthy, jsGtZero] at hb
      exact hb.2
    · intro h
      exact ⟨.num m, (mem_getCategoriesParams_level _ _ _).mpr
        ⟨by simp [jsDefault, isUndef, truthy, jsGtZero, h]; omega, rfl⟩⟩
  · rw [hpos 5 (by norm_num)]
    rfl

/-- A concrete Bearer-mode Products state used by witnesses. -/
def stBearer : ProductsState :=
  { req := { headersRef := configHeadersLoc, authentication := "Bearer" },
    consumerKey := .str "k", consumerSecret := .str "s", myToken := .str "t" }

/-- Witness for C4: on a concrete Bearer state, parentId 0 and -1 give a
bare categories URL, 5 gives parentId=5. -/
theorem getCategories_positive_guard_witness :
    (stBearer.req.authentication = "Bearer") ∧
    callOf (Products.getCategories (mkConfig none none none) stBearer initHeap
        (.num 0) .undefined) =
      some { url := (mkConfig none none none).SUPPLIERS_API_URL ++
               "/catalog/categories",
             opts := { method := "GET", headers := initHeap configHeadersLoc,
                       extra := [] } } ∧
    callOf (Products.getCategories (mkConfig none none none) stBearer initHeap
        (.num (-1)) .undefined) =
      some { url := (mkConfig none none none).SUPPLIERS_API_URL ++
               "/catalog/categories",
             opts := { method := "GET", headers := initHeap configHeadersLoc,
                       extra := [] } } ∧
    callOf (Products.getCategories (mkConfig none none none) stBearer initHeap
        (.num 5) .undefined) =
      some { url := (mkConfig none none none).SUPPLIERS_API_URL ++
               "/catalog/categories" ++ "?" ++ "parentId=5",
             opts := { method := "GET", headers := initHeap configHeadersLoc,
                       extra := [] } } :=
  ⟨rfl,
    (getCategories_positive_guard (mkConfig none none none) stBearer initHeap
        rfl).2.2.2.2.2.1 0 (by norm_num),
    (getCategories_positive_guard (mkConfig none none none) stBearer initHeap
        rfl).2.2.2.2.2.1 (-1) (by norm_num),
    (getCategories_positive_guard (mkConfig none none none) stBearer initHeap
        rfl).2.2.2.2.2.2⟩

/-! More finishFetch / dollarFetch evaluation helpers. -/

theorem finishFetch_get_general (heap : Heap) (inst : ReqInstance)
    (method url : String) (options : List (String × JSVal))
    (hm : jsToUpper method = "GET") (hne : options ≠ []) :
    finishFetch heap inst method url options =
      ({ url := url ++ "?" ++ qsStringify options,
         opts := { method := method, headers := heap inst.headersRef,
                   extra := [] } }, heap) := by
  unfold finishFetch
  rw [show (jsToUpper method == "GET" && decide (options.length > 0)) = true from by
    rw [hm, decide_eq_true (List.length_pos.mpr hne)]; rfl]
  rfl

theorem finishFetch_noserialize (heap : Heap) (inst : ReqInstance)
    (method url : String) (options : List (String × JSVal))
    (h : jsToUpper method = "GET" → options = []) :
    finishFetch heap inst method url options =
      ({ url := url,
         opts := { method := method, headers := heap inst.headersRef,
                   extra := options } }, heap) := by
  by_cases hm : jsToUpper method = "GET"
  · have hopt := h hm
    subst hopt
    exact finishFetch_nil heap inst method url
  · exact finishFetch_nonget heap inst method url options (by simp [hm])

theorem dollarFetch_ok_shape (cfg : Config) (inst : ReqInstance) (heap : Heap)
    (method path : String) (options : List (String × JSVal))
    (call : FetchCall) (h1 : Heap)
    (hok : dollarFetch cfg inst heap method path options = .ok (call, h1)) :
    ∃ h0 : Heap,
      finishFetch h0 inst method (cfg.SUPPLIERS_API_URL ++ path) options =
        (call, h1) := by
  by_cases hb : (inst.authentication == "Basic") = true
  · by_cases hcred : (!truthy cfg.BASIC_USER || !truthy cfg.BASIC_PASS) = true
    · rw [show dollarFetch cfg inst heap method path options =
          .error "no a valid Username and Password" from by
        unfold dollarFetch; rw [hb, hcred]; rfl] at hok
      cases hok
    · rw [show dollarFetch cfg inst heap method path options =
          .ok (finishFetch (writeAuth heap inst.headersRef ("Basic " ++ base64
            (jsToString cfg.BASIC_USER ++ ":" ++ jsToString cfg.BASIC_PASS)))
            inst method (cfg.SUPPLIERS_API_URL ++ path) options) from by
        unfold dollarFetch; rw [hb, Bool.eq_false_iff.mpr hcred]; rfl] at hok
      injection hok with h2
      exact ⟨_, h2⟩
  · rw [show dollarFetch cfg inst heap method path options =
        .ok (finishFetch heap inst method (cfg.SUPPLIERS_API_URL ++ path)
          options) from by
      unfold dollarFetch; rw [Bool.eq_false_iff.mpr hb]; rfl] at hok
    injection hok with h2
    exact ⟨heap, h2⟩

/-- C5: $fetch serializes by verb — any successfully issued call appends
the options as a query string (and carries no merged options, hence no
body) exactly when the upper-cased method is GET and the options map is
non-empty; otherwise the URL is bare and the options are merged into the
request configuration. In particular getOrderById issues a bodyless GET
and createOrder issues a POST whose body is the JSON of its data. -/
theorem fetch_get_vs_other_serialization (cfg : Config) (inst : ReqInstance)
    (heap : Heap) (method path : String) (options : List (String × JSVal))
    (call : FetchCall) (h1 : Heap)
    (hok : dollarFetch cfg inst heap method path options = .ok (call, h1)) :
    (jsToUpper method = "GET" → options ≠ [] →
      call.url = cfg.SUPPLIERS_API_URL ++ path ++ "?" ++ qsStringify options ∧
      call.opts.extra = [] ∧ call.opts.method = method) ∧
    ((jsToUpper method = "GET" → options = []) →
      call.url = cfg.SUPPLIERS_API_URL ++ path ∧
      call.opts.extra = options ∧ call.opts.method = method) ∧
    (∀ st : ProductsState, st.req.authentication = "Bearer" →
      callOf (Products.getOrderById cfg st heap (.str "abc")) =
        some { url := cfg.SUPPLIERS_API_URL ++ "/orders/abc",
               opts := { method := "GET", headers := heap st.req.headersRef,
                         extra := [] } } ∧
      callOf (Products.createOrder cfg st heap (.obj [("foo", .num 1)])) =
        some { url := cfg.SUPPLIERS_API_URL ++ "/orders",
               opts := { method := "POST", headers := heap st.req.headersRef,
                         extra := [("body", .str "\x7b\"foo\":1\x7d")] } }) := by
  obtain ⟨h0, hff⟩ := dollarFetch_ok_shape cfg inst heap method path options
    call h1 hok
  refine ⟨?_, ?_, ?_⟩
  · intro hm hne
    rw [finishFetch_get_general h0 inst method _ options hm hne] at hff
    injection hff with h2 h3
    subst h2
    exact ⟨rfl, rfl, rfl⟩
  · intro hq
    rw [finishFetch_noserialize h0 inst method _ options hq] at hff
    injection hff with h2 h3
    subst h2
    exact ⟨rfl, rfl, rfl⟩
  · intro st hst
    constructor
    · unfold Products.getOrderById
      rw [dollarFetch_bearer cfg st.req heap "GET"
          ("/orders/" ++ jsToString (.str "abc")) [] hst,
        finishFetch_nil heap st.req "GET"
          (cfg.SUPPLIERS_API_URL ++ ("/orders/" ++ jsToString (.str "abc")))]
      rfl
    · unfold Products.createOrder
      rw [dollarFetch_bearer cfg st.req heap "POST" "/orders"
          [("body", .str (jsonStringify (.obj [("foo", .num 1)])))] hst,
        finishFetch_nonget heap st.req "POST" (cfg.SUPPLIERS_API_URL ++ "/orders")
          [("body", .str (jsonStringify (.obj [("foo", .num 1)])))] rfl]
      rfl

/-- Witness for C5: a concrete GET with a non-empty options map appends
the serialized query and sends no merged options. -/
theorem fetch_get_vs_other_serialization_witness :
    (dollarFetch (mkConfig none none none) stBearer.req initHeap "GET" "/x"
        [("a", JSVal.num 1)] =
      .ok ({ url := "https://dev.suppliers.knawat.io/api/x?a=1",
             opts := { method := "GET", headers := initHeaders, extra := [] } },
           initHeap)) ∧
    ({ url := "https://dev.suppliers.knawat.io/api/x?a=1",
       opts := { method := "GET", headers := initHeaders,
                 extra := [] } : FetchCall }.url =
      (mkConfig none none none).SUPPLIERS_API_URL ++ "/x" ++ "?" ++
        qsStringify [("a", JSVal.num 1)]) ∧
    ({ url := "https://dev.suppliers.knawat.io/api/x?a=1",
       opts := { method := "GET", headers := initHeaders,
                 extra := [] } : FetchCall }.opts.extra = []) := by
  have T := fetch_get_vs_other_serialization (mkConfig none none none)
    stBearer.req initHeap "GET" "/x" [("a", JSVal.num 1)]
    { url := "https://dev.suppliers.knawat.io/api/x?a=1",
      opts := { method := "GET", headers := initHeaders, extra := [] } }
    initHeap rfl
  exact ⟨rfl, (T.1 rfl (List.cons_ne_nil _ _)).1,
    (T.1 rfl (List.cons_ne_nil _ _)).2.1⟩

/-- C6: when Basic authentication is selected and the configured username
or password is missing (falsy), $fetch raises the configuration error
synchronously and no transport call is issued (empty trace). -/
theorem fetch_basic_missing_credentials_fails_fast (cfg : Config)
    (inst : ReqInstance) (heap : Heap) (method path : String)
    (options : List (String × JSVal))
    (hb : inst.authentication = "Basic")
    (hmiss : truthy cfg.BASIC_USER = false ∨ truthy cfg.BASIC_PASS = false) :
    dollarFetch cfg inst heap method path options =
      .error "no a valid Username and Password" ∧
    traceOf (dollarFetch cfg inst heap method path options) = [] := by
  have herr : dollarFetch cfg inst heap method path options =
      .error "no a valid Username and Password" := by
    unfold dollarFetch
    rw [hb, show (!truthy cfg.BASIC_USER || !truthy cfg.BASIC_PASS) = true from by
      rcases hmiss with h | h <;> rw [h] <;> simp]
    rfl
  exact ⟨herr, by rw [herr]; rfl⟩

/-- Witness for C6: a Suppliers instance with no configured credentials
fails with the configuration error and an empty trace. -/
theorem fetch_basic_missing_credentials_fails_fast_witness :
    (Suppliers.construct.authentication = "Basic") ∧
    (truthy (mkConfig none none none).BASIC_USER = false ∨
      truthy (mkConfig none none none).BASIC_PASS = false) ∧
    dollarFetch (mkConfig none none none) Suppliers.construct initHeap
        "GET" "/suppliers" [] =
      .error "no a valid Username and Password" ∧
    traceOf (dollarFetch (mkConfig none none none) Suppliers.construct initHeap
        "GET" "/suppliers" []) = [] :=
  ⟨rfl, Or.inl (by decide),
    (fetch_basic_missing_credentials_fails_fast (mkConfig none none none)
      Suppliers.construct initHeap "GET" "/suppliers" [] rfl
      (Or.inl (by decide))).1,
    (fetch_basic_missing_credentials_fails_fast (mkConfig none none none)
      Suppliers.construct initHeap "GET" "/suppliers" [] rfl
      (Or.inl (by decide))).2⟩

/-- C7: in Basic mode every successful $fetch recomputes the authorization
header from the credentials configured at call time — for every prior heap
state the issued call carries Basic base64(user:pass) of the current
config, the shared headers object is updated to that value, and when two
successive calls run under different configs the second call carries the
header derived from the second config. -/
theorem fetch_basic_header_recomputed (cfg cfg2 : Config) (inst : ReqInstance)
    (heap : Heap) (method path : String) (options : List (String × JSVal))
    (u p : String)
    (hb : inst.authentication = "Basic")
    (hu : cfg.BASIC_USER = .str u) (hp : cfg.BASIC_PASS = .str p)
    (hu2 : u ≠ "") (hp2 : p ≠ "") :
    (∀ call h1, dollarFetch cfg inst heap method path options = .ok (call, h1) →
      getHeader call.opts.headers "authorization" =
        some ("Basic " ++ base64 (u ++ ":" ++ p)) ∧
      getHeader (h1 inst.headersRef) "authorization" =
        some ("Basic " ++ base64 (u ++ ":" ++ p))) ∧
    (∀ (u2 p2 : String), cfg2.BASIC_USER = .str u2 → cfg2.BASIC_PASS = .str p2 →
      u2 ≠ "" → p2 ≠ "" →
      ∀ call1 h1 call2 h2,
        dollarFetch cfg inst heap method path options = .ok (call1, h1) →
        dollarFetch cfg2 inst h1 method path options = .ok (call2, h2) →
        getHeader call2.opts.headers "authorization" =
          some ("Basic " ++ base64 (u2 ++ ":" ++ p2))) := by
  have hgen : ∀ (c : Config) (hh : Heap) (v w : String), c.BASIC_USER = .str v →
      c.BASIC_PASS = .str w → v ≠ "" → w ≠ "" →
      ∀ call h1, dollarFetch c inst hh method path options = .ok (call, h1) →
        getHeader call.opts.headers "authorization" =
          some ("Basic " ++ base64 (v ++ ":" ++ w)) ∧
        getHeader (h1 inst.headersRef) "authorization" =
          some ("Basic " ++ base64 (v ++ ":" ++ w)) := by
    intro c hh v w hv hw hv2 hw2 call h1 hok
    rw [dollarFetch_basic_ok c inst hh method path options hb
        (by rw [hv]; simp [truthy, hv2]) (by rw [hw]; simp [truthy, hw2])] at hok
    have hheads : call.opts.headers = (writeAuth hh inst.headersRef
        ("Basic " ++ base64 (jsToString c.BASIC_USER ++ ":" ++
          jsToString c.BASIC_PASS))) inst.headersRef ∧
        h1 = writeAuth hh inst.headersRef ("Basic " ++ base64
          (jsToString c.BASIC_USER ++ ":" ++ jsToString c.BASIC_PASS)) := by
      injection hok with h2
      have hh1 : h1 = (finishFetch (writeAuth hh inst.headersRef
          ("Basic " ++ base64 (jsToString c.BASIC_USER ++ ":" ++
            jsToString c.BASIC_PASS))) inst method
          (c.SUPPLIERS_API_URL ++ path) options).2 := by rw [h2]
      have hc1 : call = (finishFetch (writeAuth hh inst.headersRef
          ("Basic " ++ base64 (jsToString c.BASIC_USER ++ ":" ++
            jsToString c.BASIC_PASS))) inst method
          (c.SUPPLIERS_API_URL ++ path) options).1 := by rw [h2]
      rw [hc1, hh1, finishFetch_headers, finishFetch_heap]
      exact ⟨rfl, rfl⟩
    have hval : jsToString c.BASIC_USER ++ ":" ++ jsToString c.BASIC_PASS =
        v ++ ":" ++ w := by rw [hv, hw]; rfl
    constructor
    · rw [hheads.1, writeAuth, if_pos rfl, hval]
      exact getHeader_setHeader _ _ _
    · rw [hheads.2, writeAuth]
      rw [if_pos rfl, hval]
      exact getHeader_setHeader _ _ _
  refine ⟨hgen cfg heap u p hu hp hu2 hp2, ?_⟩
  intro u2 p2 hcu hcp hu22 hp22 call1 h1 call2 h2 hok1 hok2
  exact (hgen cfg2 h1 u2 p2 hcu hcp hu22 hp22 call2 h2 hok2).1

/-- Witness for C7: with configured credentials a/b the concrete call
issued by getSuppliers carries the header Basic base64 of a:b. -/
theorem fetch_basic_header_recomputed_witness :
    (Suppliers.construct.authentication = "Basic") ∧
    ((mkConfig none (some "a") (some "b")).BASIC_USER = JSVal.str "a") ∧
    ((mkConfig none (some "a") (some "b")).BASIC_PASS = JSVal.str "b") ∧
    getHeader ({ url := "https://dev.suppliers.knawat.io/api/suppliers",
                 opts := { method := "GET",
                           headers := [("Content-Type", "application/json"),
                                       ("authorization", "Basic YTpi")],
                           extra := [] } } : FetchCall).opts.headers
        "authorization" =
      some ("Basic " ++ base64 ("a" ++ ":" ++ "b")) := by
  refine ⟨rfl, rfl, rfl, ?_⟩
  exact ((fetch_basic_header_recomputed (mkConfig none (some "a") (some "b"))
    (mkConfig none (some "c") (some "d")) Suppliers.construct initHeap
    "GET" "/suppliers" [] "a" "b" rfl rfl rfl
    (by decide) (by decide)).1
    { url := "https://dev.suppliers.knawat.io/api/suppliers",
      opts := { method := "GET",
                headers := [("Content-Type", "application/json"),
                            ("authorization", "Basic YTpi")],
                extra := [] } }
    (writeAuth initHeap 0 "Basic YTpi") rfl).1

/-- C8: getOrders defaults limit to 25 and page to 1, serializes them
manually with querystring.stringify, appends the result to the path, and
passes an empty options map to $fetch — so the GET serialization branch of
$fetch is not used; getOrders() issues a GET whose path-with-query is
/orders?limit=25&page=1. -/
theorem getOrders_manual_query_string (cfg : Config) (st : ProductsState)
    (heap : Heap) (hauth : st.req.authentication = "Bearer") :
    (∀ limit page : JSVal,
      Products.getOrders cfg st heap limit page =
        dollarFetch cfg st.req heap "GET"
          ("/orders?" ++ qsStringify
            [("limit", jsDefault limit (.num 25)),
             ("page", jsDefault page (.num 1))]) []) ∧
    (callOf (Products.getOrders cfg st heap .undefined .undefined) =
      some { url := cfg.SUPPLIERS_API_URL ++ ("/orders?" ++ "limit=25&page=1"),
             opts := { method := "GET", headers := heap st.req.headersRef,
                       extra := [] } }) ∧
    (∀ l p : Int,
      callOf (Products.getOrders cfg st heap (.num l) (.num p)) =
        some { url := cfg.SUPPLIERS_API_URL ++ ("/orders?" ++ qsStringify
                 [("limit", .num l), ("page", .num p)]),
               opts := { method := "GET", headers := heap st.req.headersRef,
                         extra := [] } }) := by
  refine ⟨fun limit page => rfl, ?_, ?_⟩
  · rw [show Products.getOrders cfg st heap .undefined .undefined =
        dollarFetch cfg st.req heap "GET"
          ("/orders?" ++ qsStringify
            [("limit", JSVal.num 25), ("page", JSVal.num 1)]) [] from rfl,
      dollarFetch_bearer cfg st.req heap "GET"
        ("/orders?" ++ qsStringify
          [("limit", JSVal.num 25), ("page", JSVal.num 1)]) [] hauth,
      finishFetch_nil heap st.req "GET"
        (cfg.SUPPLIERS_API_URL ++ ("/orders?" ++ qsStringify
          [("limit", JSVal.num 25), ("page", JSVal.num 1)]))]
    rfl
  · intro l p
    rw [show Products.getOrders cfg st heap (.num l) (.num p) =
        dollarFetch cfg st.req heap "GET"
          ("/orders?" ++ qsStringify
            [("limit", JSVal.num l), ("page", JSVal.num p)]) [] from rfl,
      dollarFetch_bearer cfg st.req heap "GET"
        ("/orders?" ++ qsStringify
          [("limit", JSVal.num l), ("page", JSVal.num p)]) [] hauth,
      finishFetch_nil heap st.req "GET"
        (cfg.SUPPLIERS_API_URL ++ ("/orders?" ++ qsStringify
          [("limit", JSVal.num l), ("page", JSVal.num p)]))]
    rfl

/-- Witness for C8: the default getOrders call on a concrete Bearer state
produces the GET to /orders?limit=25&page=1. -/
theorem getOrders_manual_query_string_witness :
    (stBearer.req.authentication = "Bearer") ∧
    callOf (Products.getOrders (mkConfig none none none) stBearer initHeap
        .undefined .undefined) =
      some { url := (mkConfig none none none).SUPPLIERS_API_URL ++
               ("/orders?" ++ "limit=25&page=1"),
             opts := { method := "GET", headers := initHeap configHeadersLoc,
                       extra := [] } } :=
  ⟨rfl, (getOrders_manual_query_string (mkConfig none none none) stBearer
    initHeap rfl).2.1⟩

/-- The token setter never changes the Request fields of the instance. -/
theorem tokenSet_preserves_req (cfg : Config) (st : ProductsState)
    (heap : Heap) (val : JSVal) :
    ∀ st2 h2, (Products.tokenSet cfg st heap val).1 = .ok (st2, h2) →
      st2.req = st.req := by
  intro st2 h2 h
  unfold Products.tokenSet at h
  rcases hd : (if truthy val = true then
      ((.ok (val, heap) : Except String (JSVal × Heap)), ([] : List FetchCall))
    else Products.tokenGet cfg st heap) with ⟨e, tr⟩
  rw [hd] at h
  cases e with
  | error msg => cases h
  | ok vh =>
    rcases vh with ⟨v, hh⟩
    injection h with h3
    injection h3 with h4 h5
    rw [← h4]

/-- C9: all Request instances alias the single config.HEADERS object — the
Suppliers constructor and every successfully constructed Products instance
store the same heap location; when a Basic-authenticated call writes the
authorization header through that location, a subsequent request issued by
any other instance (Bearer mode, any path) carries the written value in
its headers; likewise a bearer-token assignment through one instance is
carried by other instances' subsequent requests. -/
theorem headers_object_shared_by_reference (cfg cfgB : Config) (heap : Heap)
    (key secret token : JSVal) :
    (Suppliers.construct.headersRef = configHeadersLoc) ∧
    (∀ st h1, (Products.construct cfg heap key secret token).1 = .ok (st, h1) →
      st.req.headersRef = configHeadersLoc) ∧
    (∀ (u p : String), cfgB.BASIC_USER = .str u → cfgB.BASIC_PASS = .str p →
      u ≠ "" → p ≠ "" →
      ∀ call1 h1, Suppliers.getSuppliers cfgB Suppliers.construct heap =
          .ok (call1, h1) →
      ∀ inst2 : ReqInstance, inst2.headersRef = configHeadersLoc →
        inst2.authentication = "Bearer" →
      ∀ path2 call2 h2,
        dollarFetch cfg inst2 h1 "GET" path2 [] = .ok (call2, h2) →
        getHeader call2.opts.headers "authorization" =
          some ("Basic " ++ base64 (u ++ ":" ++ p))) ∧
    (∀ (st : ProductsState) (v : JSVal), st.req.headersRef = configHeadersLoc →
      truthy v = true →
      ∀ st2 h2, Products.tokenSet cfg st heap v = (.ok (st2, h2), []) →
      ∀ inst2 : ReqInstance, inst2.headersRef = configHeadersLoc →
        inst2.authentication = "Bearer" →
      ∀ path2 call2 h3,
        dollarFetch cfg inst2 h2 "GET" path2 [] = .ok (call2, h3) →
        getHeader call2.opts.headers "authorization" =
          some ("Bearer " ++ jsToString v)) := by
  refine ⟨rfl, ?_, ?_, ?_⟩
  · intro st h1 h
    by_cases hg : ((!truthy key || !truthy secret) && !truthy token) = true
    · rw [show Products.construct cfg heap key secret token =
          (.error "Not a valid consumerKey and consumerSecret or token", [])
          from by unfold Products.construct; rw [hg]; rfl] at h
      cases h
    · rw [show Products.construct cfg heap key secret token =
          Products.tokenSet cfg
            { req := { headersRef := configHeadersLoc,
                       authentication := "Bearer" },
              consumerKey := key, consumerSecret := secret,
              myToken := .undefined } heap token
          from by unfold Products.construct; rw [Bool.eq_false_iff.mpr hg]; rfl] at h
      rw [tokenSet_preserves_req cfg _ heap token st h1 h]
  · intro u p hu hp hu2 hp2 call1 h1 hok1 inst2 href2 hauth2 path2 call2 h2 hok2
    rw [show Suppliers.getSuppliers cfgB Suppliers.construct heap =
        dollarFetch cfgB Suppliers.construct heap "GET" "/suppliers" []
        from rfl,
      dollarFetch_basic_ok cfgB Suppliers.construct heap "GET" "/suppliers" []
        rfl (by rw [hu]; simp [truthy, hu2]) (by rw [hp]; simp [truthy, hp2]),
      finishFetch_nil _ Suppliers.construct "GET"
        (cfgB.SUPPLIERS_API_URL ++ "/suppliers")] at hok1
    injection hok1 with h3
    injection h3 with h4 h5
    rw [dollarFetch_bearer cfg inst2 h1 "GET" path2 [] hauth2,
      finishFetch_nil h1 inst2 "GET" (cfg.SUPPLIERS_API_URL ++ path2)] at hok2
    injection hok2 with h6
    injection h6 with h7 h8
    rw [← h7, href2, ← h5]
    show getHeader (setHeader (heap configHeadersLoc) "authorization"
      ("Basic " ++ base64 (jsToString cfgB.BASIC_USER ++ ":" ++
        jsToString cfgB.BASIC_PASS))) "authorization" =
      some ("Basic " ++ base64 (u ++ ":" ++ p))
    rw [hu, hp]
    exact getHeader_setHeader _ _ _
  · intro st v hrefst hv st2 h2 hset inst2 href2 hauth2 path2 call2 h3 hok2
    rw [show Products.tokenSet cfg st heap v =
        (.ok ({ st with myToken := v },
          writeAuth heap st.req.headersRef ("Bearer " ++ jsToString v)), [])
        from by unfold Products.tokenSet; rw [hv]; rfl] at hset
    injection hset with h4 h5
    injection h4 with h6
    injection h6 with h7 h8
    rw [dollarFetch_bearer cfg inst2 h2 "GET" path2 [] hauth2,
      finishFetch_nil h2 inst2 "GET" (cfg.SUPPLIERS_API_URL ++ path2)] at hok2
    injection hok2 with h9
    injection h9 with h10 h11
    rw [← h10, href2, ← h8, hrefst]
    show getHeader (setHeader (heap configHeadersLoc) "authorization"
      ("Bearer " ++ jsToString v)) "authorization" =
      some ("Bearer " ++ jsToString v)
    exact getHeader_setHeader _ _ _

/-- Witness for C9: with credentials a/b a Suppliers call writes Basic
YTpi into the shared headers object, and a Products-style instance's next
request carries that very header. -/
theorem headers_object_shared_by_reference_witness :
    (Suppliers.construct.headersRef = configHeadersLoc) ∧
    (stBearer.req.headersRef = configHeadersLoc) ∧
    ("a" ≠ "" ∧ "b" ≠ "") ∧
    getHeader [("Content-Type", "application/json"),
               ("authorization", "Basic YTpi")] "authorization" =
      some ("Basic " ++ base64 ("a" ++ ":" ++ "b")) := by
  refine ⟨rfl, rfl, ⟨by decide, by decide⟩, ?_⟩
  have T := (headers_object_shared_by_reference (mkConfig none none none)
    (mkConfig none (some "a") (some "b")) initHeap .undefined .undefined
    (.str "t")).2.2.1 "a" "b" rfl rfl (by decide) (by decide)
    { url := "https://dev.suppliers.knawat.io/api/suppliers",
      opts := { method := "GET",
                headers := [("Content-Type", "application/json"),
                            ("authorization", "Basic YTpi")],
                extra := [] } }
    (writeAuth initHeap configHeadersLoc "Basic YTpi") rfl
    stBearer.req rfl rfl "/orders/1"
    { url := "https://dev.suppliers.knawat.io/api/orders/1",
      opts := { method := "GET",
                headers := [("Content-Type", "application/json"),
                            ("authorization", "Basic YTpi")],
                extra := [] } }
    (writeAuth initHeap configHeadersLoc "Basic YTpi") rfl
  exact T
